import Mathlib

set_option autoImplicit false
set_option linter.unusedVariables false

namespace KanataLayerObserver

/-! Shallow embedding of `src/main.rs` of kanata-layer-observer.

The program is a TCP client for the kanata daemon: an outer supervisor
loop (`main`) connects with retry, and a stream processor
(`read_from_kanata`) reads newline-delimited frames, decodes each with
serde_json, and runs an external script once per `LayerChange` frame.

External collaborators (serde_json decoding, the shellexpand tilde
expansion, the OS read and process-spawn results) are modelled as
oracle parameters; the control flow and data flow of the repository
code itself is translated directly. -/

/-- a minimal JSON value, standing in for the external `serde_json::Value`
carried by the `MessagePush` variant (never inspected by this program). -/
inductive Json where
  | null : Json
  | bool (b : Bool) : Json
  | num (n : Int) : Json
  | str (s : String) : Json
  | arr (elems : List Json) : Json
  | obj (fields : List (String × Json)) : Json

/-- the `ServerMessage` enum of `main.rs` (lines 9-18). -/
inductive ServerMessage where
  | LayerChange (new : String)
  | LayerNames (names : List String)
  | CurrentLayerInfo (name : String) (cfg_text : String)
  | ConfigFileReload (new : String)
  | CurrentLayerName (name : String)
  | MessagePush (message : Json)
  | Error (msg : String)

/-- the `ServerResponse` enum of `main.rs` (lines 20-25); defined for
completeness of the data model, never consumed by the read path. -/
inductive ServerResponse where
  | Ok
  | Error (msg : String)

/-- kind of a `std::io::Error`; the program constructs `ConnectionReset`
itself and receives arbitrary other kinds from the runtime. -/
inductive IoErrorKind where
  | connectionReset
  | other (name : String)
deriving DecidableEq

/-- a `std::io::Error` value: its kind and display message. -/
structure IoError where
  kind : IoErrorKind
  msg : String
deriving DecidableEq

/-- the error built at line 193 of `main.rs` when `read_line` returns 0. -/
def connectionClosedError : IoError :=
  { kind := IoErrorKind.connectionReset, msg := "connection closed by kanata" }

/-- outcome of one `reader.read_line(&mut msg)` call, supplied by the
environment: an io error, end of stream (0 bytes), or a line `s`
(the text appended to the buffer, trailing newline included). -/
inductive ReadEvent where
  | closed
  | readErr (e : IoError)
  | line (s : String)

/-- outcome of one `Command::new(path).arg(new).output()` call:
the process ran (with exit-status success flag and captured stderr),
or it failed to launch. -/
inductive ActionOutcome where
  | completed (success : Bool) (stderr : String)
  | launchFailed (err : String)
deriving DecidableEq

/-- log severity used by the program. -/
inductive LogLevel where
  | info
  | debug
  | error
deriving DecidableEq

/-- one emitted log record. -/
structure LogEntry where
  level : LogLevel
  text : String
deriving DecidableEq

/-- one external-action invocation: the executable path used, the single
argument passed, and the outcome the environment produced for it. -/
structure Invocation where
  path : String
  arg : String
  outcome : ActionOutcome
deriving DecidableEq

/-- observable trace of a run of the read loop over a finite list of read
events: logs, action invocations in order, the exact strings handed to
the decoder, and the function result (`none` while the loop is still
running, i.e. the event list was exhausted without a return). -/
structure LoopTrace where
  logs : List LogEntry
  invocations : List Invocation
  decodeInputs : List String
  result : Option (Except IoError Unit)

/-- the log entry produced by the `match out` at lines 207-214 of
`main.rs` for one script invocation outcome. -/
def scriptLog (out : ActionOutcome) : LogEntry :=
  match out with
  | ActionOutcome.completed true _ => { level := LogLevel.debug, text := "Script executed successfully" }
  | ActionOutcome.completed false stderr => { level := LogLevel.error, text := "Script failed: " ++ stderr }
  | ActionOutcome.launchFailed e => { level := LogLevel.error, text := "Failed to execute script: " ++ e }

/-- the `loop` body of `read_from_kanata` (lines 187-217), run over a
finite list of read events. `decode` models `serde_json::from_str`
(`none` is a parse error), `action k` is the environment outcome of the
k-th script launch of this session, `msg` is the reusable line buffer
carried across iterations (cleared at the top of each iteration, as in
the source). -/
def readLoop (decode : String → Option ServerMessage) (action : Nat → ActionOutcome)
    (expanded_script_path : String) (k : Nat) (msg : String) :
    List ReadEvent → LoopTrace
  | [] => { logs := [], invocations := [], decodeInputs := [], result := none }
  | ev :: rest =>
    let msg := ""
    match ev with
    | ReadEvent.readErr e =>
      { logs := [], invocations := [], decodeInputs := [], result := some (Except.error e) }
    | ReadEvent.closed =>
      { logs := [], invocations := [], decodeInputs := [],
        result := some (Except.error connectionClosedError) }
    | ReadEvent.line s =>
      let msg := msg ++ s
      match decode msg with
      | some (ServerMessage.LayerChange new) =>
        let out := action k
        let t := readLoop decode action expanded_script_path (k + 1) msg rest
        { logs := { level := LogLevel.debug, text := "message received" }
            :: { level := LogLevel.debug, text := "Layer changed to: " ++ new }
            :: scriptLog out :: t.logs,
          invocations := { path := expanded_script_path, arg := new, outcome := out } :: t.invocations,
          decodeInputs := msg :: t.decodeInputs,
          result := t.result }
      | _ =>
        let t := readLoop decode action expanded_script_path k msg rest
        { logs := { level := LogLevel.debug, text := "message received" } :: t.logs,
          invocations := t.invocations,
          decodeInputs := msg :: t.decodeInputs,
          result := t.result }

/-- `read_from_kanata` (lines 180-218): creates the empty line buffer,
expands the tilde in the script path once, then enters the read loop.
`tilde n s` is the expansion `shellexpand::tilde(s)` would yield when
evaluated at step `n` of the session (step 0 is the single pre-loop
evaluation the source performs; later indices exist only so theorems can
state that they are never consulted). -/
def read_from_kanata (decode : String → Option ServerMessage) (action : Nat → ActionOutcome)
    (tilde : Nat → String → String) (script_path : String)
    (events : List ReadEvent) : LoopTrace :=
  let msg := ""
  let expanded_script_path := tilde 0 script_path
  let t := readLoop decode action expanded_script_path 0 msg events
  { t with logs := { level := LogLevel.debug, text := "reader starting" } :: t.logs }

/-- outcome of one `TcpStream::connect_timeout` attempt: failure (which
includes timeout), or a connection whose subsequent read events are the
given list. -/
inductive ConnAttempt where
  | failed (e : IoError)
  | connected (events : List ReadEvent)

/-- how one iteration of the outer `loop` in `main` (lines 156-177) ends:
still blocked inside the stream processor (its event trace ran out),
proceeding to the next iteration after an optional sleep (in seconds),
or exiting the process with a code. -/
inductive SupOutcome where
  | blocked
  | nextAfter (sleepSecs : Option Nat)
  | exited (code : Nat)
deriving DecidableEq

/-- observable behaviour of one supervisor-loop iteration. -/
structure SupIter where
  logs : List LogEntry
  invocations : List Invocation
  outcome : SupOutcome

/-- one iteration of the connection-retry `loop` in `main`
(lines 156-177), translated branch by branch: on connect failure log and
sleep 30 s; on success run `read_from_kanata`; if it returns an error
log and sleep 30 s; the (unreachable) `Ok` return would loop again with
no sleep. -/
def supervisorIter (decode : String → Option ServerMessage) (action : Nat → ActionOutcome)
    (tilde : Nat → String → String) (script_path : String) (port : Nat) :
    ConnAttempt → SupIter
  | ConnAttempt.failed e =>
    let attemptLog : LogEntry :=
      { level := LogLevel.info, text := "attempting to connect to kanata on port " ++ toString port }
    let failLog : LogEntry :=
      { level := LogLevel.error,
        text := "failed to connect to kanata: " ++ e.msg ++ ". retrying in 30 seconds..." }
    { logs := [attemptLog, failLog],
      invocations := [],
      outcome := SupOutcome.nextAfter (some 30) }
  | ConnAttempt.connected events =>
    let t := read_from_kanata decode action tilde script_path events
    let attemptLog : LogEntry :=
      { level := LogLevel.info, text := "attempting to connect to kanata on port " ++ toString port }
    let successLog : LogEntry :=
      { level := LogLevel.info, text := "successfully connected to kanata" }
    let logs := attemptLog :: successLog :: t.logs
    match t.result with
    | none => { logs := logs, invocations := t.invocations, outcome := SupOutcome.blocked }
    | some (Except.error e) =>
      let lostLog : LogEntry :=
        { level := LogLevel.error,
          text := "connection lost: " ++ e.msg ++ ". retrying in 30 seconds..." }
      { logs := logs ++ [lostLog],
        invocations := t.invocations,
        outcome := SupOutcome.nextAfter (some 30) }
    | some (Except.ok _) =>
      { logs := logs, invocations := t.invocations, outcome := SupOutcome.nextAfter none }

/-! Startup configuration handling (outside the core loop). -/

/-- the `Config` struct of `main.rs` (lines 27-38). -/
structure Config where
  port : Nat
  script_path : String
  log_level : String
deriving DecidableEq

/-- the default configuration built in `create_default_config`
(lines 45-49). -/
def defaultConfig : Config :=
  { port := 5829,
    script_path := "~/.config/kanata-observer/layer_change.sh",
    log_level := "info" }

/-- outcome of the directory-creation plus `fs::write` of the default
config file, supplied by the environment. -/
inductive WriteResult where
  | ok
  | err (e : String)

/-- `create_default_config` (lines 44-77): writes the default config file
and returns the default `Config`, or propagates the io error. -/
def create_default_config (write : WriteResult) : Except String Config :=
  match write with
  | WriteResult.ok => Except.ok defaultConfig
  | WriteResult.err e => Except.error e

/-- outcome of `fs::read_to_string` on the config path. -/
inductive ReadFileResult where
  | ok (contents : String)
  | notFound
  | otherErr (e : String)

/-- how the startup config phase of `main` ends: process exit with a
code, or proceeding (towards logger setup and the connection loop) with
a configuration. -/
inductive StartupOutcome where
  | exited (code : Nat)
  | proceed (cfg : Config)
deriving DecidableEq

/-- the config-loading `match` of `main` (lines 106-128). `parse_toml`
models `toml::from_str`. -/
def loadConfig (readRes : ReadFileResult)
    (parse_toml : String → Except String Config) (write : WriteResult) : StartupOutcome :=
  match readRes with
  | ReadFileResult.ok contents =>
    match parse_toml contents with
    | Except.ok c => StartupOutcome.proceed c
    | Except.error _ => StartupOutcome.exited 1
  | ReadFileResult.notFound =>
    match create_default_config write with
    | Except.ok c => StartupOutcome.proceed c
    | Except.error _ => StartupOutcome.exited 1
  | ReadFileResult.otherErr _ => StartupOutcome.exited 1

/-- the three `simplelog::LevelFilter` values this program uses. -/
inductive LevelFilter where
  | trace
  | debug
  | info
deriving DecidableEq

/-- `str::to_lowercase` restricted to the ASCII range, which is all the
comparison targets contain (written over the character list so that it
evaluates by kernel reduction). -/
def to_lowercase (s : String) : String := String.mk (s.data.map Char.toLower)

/-- the log-level selection of `main` (lines 131-142): `--trace` beats
`--debug` beats the config value, which is lowercased and matched. -/
def determineLogLevel (trace_flag : Bool) (debug_flag : Bool) (cfg_log_level : String) : LevelFilter :=
  if trace_flag then LevelFilter.trace
  else if debug_flag then LevelFilter.debug
  else
    match to_lowercase cfg_log_level with
    | "trace" => LevelFilter.trace
    | "debug" => LevelFilter.debug
    | "info" => LevelFilter.info
    | _ => LevelFilter.info

/-- projection the read loop dispatches on: the `new` field when a decode
result is a `LayerChange`, nothing otherwise. -/
def layerChangeNew : Option ServerMessage → Option String
  | some (ServerMessage.LayerChange new) => some new
  | _ => none

/-- a concrete decoder for closed examples: three recognized frames
(standing for one LayerChange to "nav", one LayerNames, one LayerChange
to "base"), everything else fails to decode. -/
def demoDecode : String → Option ServerMessage := fun s =>
  if s = "change-nav" then some (ServerMessage.LayerChange "nav")
  else if s = "names-base-nav" then some (ServerMessage.LayerNames ["base", "nav"])
  else if s = "change-base" then some (ServerMessage.LayerChange "base")
  else none

/-- a concrete action oracle for closed examples: every launch succeeds. -/
def demoAction : Nat → ActionOutcome := fun _ => ActionOutcome.completed true ""

/-- a concrete action oracle for closed examples: the first launch exits
non-zero, later ones fail to launch. -/
def failAction : Nat → ActionOutcome := fun k =>
  if k = 0 then ActionOutcome.completed false "boom" else ActionOutcome.launchFailed "missing"

/-- a concrete time-indexed tilde expansion whose value changes after the
session starts. -/
def demoTilde : Nat → String → String := fun n s =>
  if n = 0 then "/home/user/" ++ s else "/elsewhere/" ++ s

/-- a concrete tilde expansion frozen at the session-start value of
`demoTilde`. -/
def demoTildeConst : Nat → String → String := fun _ s => "/home/user/" ++ s

/-- a concrete io error for closed examples. -/
def demoConnErr : IoError :=
  { kind := IoErrorKind.other "refused", msg := "connection refused" }

/-! Helper lemmas. -/

@[simp]
theorem string_empty_append (s : String) : "" ++ s = s := rfl

theorem readLoop_buffer_irrelevant (decode : String → Option ServerMessage)
    (action : Nat → ActionOutcome) (p : String) (k : Nat) (m1 m2 : String)
    (events : List ReadEvent) :
    readLoop decode action p k m1 events = readLoop decode action p k m2 events := by
  cases events <;> rfl

theorem layerChangeNew_eq_some (o : Option ServerMessage) (new : String)
    (h : layerChangeNew o = some new) : o = some (ServerMessage.LayerChange new) := by
  cases o with
  | none => simp [layerChangeNew] at h
  | some m => cases m <;> simp_all [layerChangeNew]

theorem read_from_kanata_def (decode : String → Option ServerMessage)
    (action : Nat → ActionOutcome) (tilde : Nat → String → String) (script_path : String)
    (events : List ReadEvent) :
    read_from_kanata decode action tilde script_path events
      = { logs := { level := LogLevel.debug, text := "reader starting" }
            :: (readLoop decode action (tilde 0 script_path) 0 "" events).logs,
          invocations := (readLoop decode action (tilde 0 script_path) 0 "" events).invocations,
          decodeInputs := (readLoop decode action (tilde 0 script_path) 0 "" events).decodeInputs,
          result := (readLoop decode action (tilde 0 script_path) 0 "" events).result } := rfl

theorem readLoop_line_other (decode : String → Option ServerMessage)
    (action : Nat → ActionOutcome) (p : String) (k : Nat) (m s : String)
    (rest : List ReadEvent) (h : layerChangeNew (decode s) = none) :
    readLoop decode action p k m (ReadEvent.line s :: rest)
      = { logs := { level := LogLevel.debug, text := "message received" }
            :: (readLoop decode action p k s rest).logs,
          invocations := (readLoop decode action p k s rest).invocations,
          decodeInputs := s :: (readLoop decode action p k s rest).decodeInputs,
          result := (readLoop decode action p k s rest).result } := by
  cases hd : decode s with
  | none => simp [readLoop, hd]
  | some m => cases m <;> simp_all [readLoop, layerChangeNew, hd]

theorem readLoop_line_layer (decode : String → Option ServerMessage)
    (action : Nat → ActionOutcome) (p : String) (k : Nat) (m s new : String)
    (rest : List ReadEvent) (h : decode s = some (ServerMessage.LayerChange new)) :
    readLoop decode action p k m (ReadEvent.line s :: rest)
      = { logs := { level := LogLevel.debug, text := "message received" }
            :: { level := LogLevel.debug, text := "Layer changed to: " ++ new }
            :: scriptLog (action k) :: (readLoop decode action p (k + 1) s rest).logs,
          invocations := { path := p, arg := new, outcome := action k }
            :: (readLoop decode action p (k + 1) s rest).invocations,
          decodeInputs := s :: (readLoop decode action p (k + 1) s rest).decodeInputs,
          result := (readLoop decode action p (k + 1) s rest).result } := by
  simp [readLoop, h]

theorem readLoop_result_ne_ok (decode : String → Option ServerMessage)
    (action : Nat → ActionOutcome) (p : String) (events : List ReadEvent) :
    ∀ (k : Nat) (m : String) (u : Unit),
      (readLoop decode action p k m events).result ≠ some (Except.ok u) := by
  induction events with
  | nil => intro k m u h; simp [readLoop] at h
  | cons ev rest ih =>
    intro k m u h
    cases ev with
    | closed => simp [readLoop] at h
    | readErr e => simp [readLoop] at h
    | line s =>
      cases hn : layerChangeNew (decode s) with
      | none =>
        rw [readLoop_line_other decode action p k m s rest hn] at h
        exact ih k s u h
      | some new =>
        rw [readLoop_line_layer decode action p k m s new rest
          (layerChangeNew_eq_some _ _ hn)] at h
        exact ih (k + 1) s u h

theorem readLoop_result_none_or_error (decode : String → Option ServerMessage)
    (action : Nat → ActionOutcome) (p : String) (k : Nat) (m : String)
    (events : List ReadEvent) :
    (readLoop decode action p k m events).result = none
      ∨ ∃ e, (readLoop decode action p k m events).result = some (Except.error e) := by
  cases o : (readLoop decode action p k m events).result with
  | none => exact Or.inl rfl
  | some x =>
    cases x with
    | ok u => exact absurd o (readLoop_result_ne_ok decode action p events k m u)
    | error e => exact Or.inr ⟨e, rfl⟩

theorem readLoop_result_closed (decode : String → Option ServerMessage)
    (action : Nat → ActionOutcome) (p : String) (frames : List String)
    (rest : List ReadEvent) :
    ∀ (k : Nat) (m : String),
      (readLoop decode action p k m (frames.map ReadEvent.line ++ ReadEvent.closed :: rest)).result
        = some (Except.error connectionClosedError) := by
  induction frames with
  | nil => intro k m; rfl
  | cons s fs ih =>
    intro k m
    cases hn : layerChangeNew (decode s) with
    | none =>
      rw [List.map_cons, List.cons_append,
        readLoop_line_other decode action p k m s _ hn]
      exact ih k s
    | some new =>
      rw [List.map_cons, List.cons_append,
        readLoop_line_layer decode action p k m s new _ (layerChangeNew_eq_some _ _ hn)]
      exact ih (k + 1) s

theorem readLoop_result_readErr (decode : String → Option ServerMessage)
    (action : Nat → ActionOutcome) (p : String) (frames : List String)
    (e : IoError) (rest : List ReadEvent) :
    ∀ (k : Nat) (m : String),
      (readLoop decode action p k m
          (frames.map ReadEvent.line ++ ReadEvent.readErr e :: rest)).result
        = some (Except.error e) := by
  induction frames with
  | nil => intro k m; rfl
  | cons s fs ih =>
    intro k m
    cases hn : layerChangeNew (decode s) with
    | none =>
      rw [List.map_cons, List.cons_append,
        readLoop_line_other decode action p k m s _ hn]
      exact ih k s
    | some new =>
      rw [List.map_cons, List.cons_append,
        readLoop_line_layer decode action p k m s new _ (layerChangeNew_eq_some _ _ hn)]
      exact ih (k + 1) s

theorem readLoop_args (decode : String → Option ServerMessage)
    (action : Nat → ActionOutcome) (p : String) (frames : List String) :
    ∀ (k : Nat) (m : String),
      ((readLoop decode action p k m (frames.map ReadEvent.line)).invocations.map
          (fun i => i.arg))
        = frames.filterMap (fun s => layerChangeNew (decode s)) := by
  induction frames with
  | nil => intro k m; rfl
  | cons s fs ih =>
    intro k m
    cases hn : layerChangeNew (decode s) with
    | none =>
      rw [List.map_cons, readLoop_line_other decode action p k m s _ hn]
      simp [List.filterMap_cons, hn, ih k s]
    | some new =>
      rw [List.map_cons,
        readLoop_line_layer decode action p k m s new _ (layerChangeNew_eq_some _ _ hn)]
      simp [List.filterMap_cons, hn, ih (k + 1) s]

theorem readLoop_decodeInputs (decode : String → Option ServerMessage)
    (action : Nat → ActionOutcome) (p : String) (frames : List String) :
    ∀ (k : Nat) (m : String),
      (readLoop decode action p k m (frames.map ReadEvent.line)).decodeInputs = frames := by
  induction frames with
  | nil => intro k m; rfl
  | cons s fs ih =>
    intro k m
    cases hn : layerChangeNew (decode s) with
    | none =>
      rw [List.map_cons, readLoop_line_other decode action p k m s _ hn]
      simp [ih k s]
    | some new =>
      rw [List.map_cons,
        readLoop_line_layer decode action p k m s new _ (layerChangeNew_eq_some _ _ hn)]
      simp [ih (k + 1) s]

theorem readLoop_action_irrelevant (decode : String → Option ServerMessage)
    (p : String) (events : List ReadEvent) (action1 action2 : Nat → ActionOutcome) :
    ∀ (k : Nat) (m : String),
      (readLoop decode action1 p k m events).result
          = (readLoop decode action2 p k m events).result
      ∧ (readLoop decode action1 p k m events).decodeInputs
          = (readLoop decode action2 p k m events).decodeInputs
      ∧ (readLoop decode action1 p k m events).invocations.map (fun i => (i.path, i.arg))
          = (readLoop decode action2 p k m events).invocations.map (fun i => (i.path, i.arg)) := by
  induction events with
  | nil => intro k m; exact ⟨rfl, rfl, rfl⟩
  | cons ev rest ih =>
    intro k m
    cases ev with
    | closed => exact ⟨rfl, rfl, rfl⟩
    | readErr e => exact ⟨rfl, rfl, rfl⟩
    | line s =>
      cases hn : layerChangeNew (decode s) with
      | none =>
        rw [readLoop_line_other decode action1 p k m s rest hn,
          readLoop_line_other decode action2 p k m s rest hn]
        obtain ⟨h1, h2, h3⟩ := ih k s
        exact ⟨h1, by simp [h2], by simp [h3]⟩
      | some new =>
        rw [readLoop_line_layer decode action1 p k m s new rest
            (layerChangeNew_eq_some _ _ hn),
          readLoop_line_layer decode action2 p k m s new rest
            (layerChangeNew_eq_some _ _ hn)]
        obtain ⟨h1, h2, h3⟩ := ih (k + 1) s
        exact ⟨h1, by simp [h2], by simp [h3]⟩

theorem readLoop_invocation_paths (decode : String → Option ServerMessage)
    (action : Nat → ActionOutcome) (p : String) (events : List ReadEvent) :
    ∀ (k : Nat) (m : String) (inv : Invocation),
      inv ∈ (readLoop decode action p k m events).invocations → inv.path = p := by
  induction events with
  | nil => intro k m inv h; simp [readLoop] at h
  | cons ev rest ih =>
    intro k m inv h
    cases ev with
    | closed => simp [readLoop] at h
    | readErr e => simp [readLoop] at h
    | line s =>
      cases hn : layerChangeNew (decode s) with
      | none =>
        rw [readLoop_line_other decode action p k m s rest hn] at h
        exact ih k s inv h
      | some new =>
        rw [readLoop_line_layer decode action p k m s new rest
          (layerChangeNew_eq_some _ _ hn)] at h
        rcases List.mem_cons.mp h with h | h
        · rw [h]
        · exact ih (k + 1) s inv h

theorem readLoop_scriptLog_mem (decode : String → Option ServerMessage)
    (action : Nat → ActionOutcome) (p : String) (events : List ReadEvent) :
    ∀ (k : Nat) (m : String) (inv : Invocation),
      inv ∈ (readLoop decode action p k m events).invocations →
        scriptLog inv.outcome ∈ (readLoop decode action p k m events).logs := by
  induction events with
  | nil => intro k m inv h; simp [readLoop] at h
  | cons ev rest ih =>
    intro k m inv h
    cases ev with
    | closed => simp [readLoop] at h
    | readErr e => simp [readLoop] at h
    | line s =>
      cases hn : layerChangeNew (decode s) with
      | none =>
        rw [readLoop_line_other decode action p k m s rest hn] at h ⊢
        exact List.mem_cons_of_mem _ (ih k s inv h)
      | some new =>
        rw [readLoop_line_layer decode action p k m s new rest
          (layerChangeNew_eq_some _ _ hn)] at h ⊢
        rcases List.mem_cons.mp h with h | h
        · rw [h]
          exact List.mem_cons_of_mem _ (List.mem_cons_of_mem _ (List.mem_cons_self _ _))
        · exact List.mem_cons_of_mem _ (List.mem_cons_of_mem _
            (List.mem_cons_of_mem _ (ih (k + 1) s inv h)))

/-! Claim theorems. -/

/-- C1: over any arrived sequence of newline-terminated frames
(well-formed and malformed interleaved arbitrarily, i.e. under any
decoder behaviour), the stream processor invokes the external action
exactly once per frame that decodes to `LayerChange`, with the sole
argument equal to that frame's `new` field, in arrival order: the
invocation-argument list equals the in-order projection of the
LayerChange frames. -/
theorem layerchange_invoked_exactly_once_in_order
    (decode : String → Option ServerMessage) (action : Nat → ActionOutcome)
    (tilde : Nat → String → String) (script_path : String) (frames : List String) :
    ((read_from_kanata decode action tilde script_path
        (frames.map ReadEvent.line)).invocations.map (fun i => i.arg))
      = frames.filterMap (fun s => layerChangeNew (decode s)) := by
  rw [read_from_kanata_def]
  exact readLoop_args decode action _ frames 0 ""

/-- the concrete scenario of the spec: LayerChange "nav", then
LayerNames, then LayerChange "base" yields exactly two invocations with
arguments "nav" then "base". -/
theorem demo_scenario_two_invocations :
    ((read_from_kanata demoDecode demoAction demoTilde "script.sh"
        [ReadEvent.line "change-nav", ReadEvent.line "names-base-nav",
          ReadEvent.line "change-base"]).invocations.map (fun i => i.arg))
      = ["nav", "base"] := by rfl

/-- C2: a frame that decodes to a non-LayerChange variant or fails to
decode produces no invocation and no error, and the loop proceeds to the
next frame: the run on `line s :: rest` has exactly the invocations and
the result of the run on `rest`, with `s` handed to the decoder once. -/
theorem non_layerchange_frame_ignored
    (decode : String → Option ServerMessage) (action : Nat → ActionOutcome)
    (tilde : Nat → String → String) (script_path : String)
    (s : String) (rest : List ReadEvent)
    (h : layerChangeNew (decode s) = none) :
    (read_from_kanata decode action tilde script_path (ReadEvent.line s :: rest)).invocations
      = (read_from_kanata decode action tilde script_path rest).invocations
  ∧ (read_from_kanata decode action tilde script_path (ReadEvent.line s :: rest)).result
      = (read_from_kanata decode action tilde script_path rest).result
  ∧ (read_from_kanata decode action tilde script_path (ReadEvent.line s :: rest)).decodeInputs
      = s :: (read_from_kanata decode action tilde script_path rest).decodeInputs := by
  rw [read_from_kanata_def, read_from_kanata_def,
    readLoop_line_other decode action _ 0 "" s rest h,
    readLoop_buffer_irrelevant decode action _ 0 s "" rest]
  exact ⟨rfl, rfl, rfl⟩

theorem non_layerchange_frame_ignored_witness :
    layerChangeNew (demoDecode "names-base-nav") = none
  ∧ ((read_from_kanata demoDecode demoAction demoTilde "script.sh"
        [ReadEvent.line "names-base-nav"]).invocations
      = (read_from_kanata demoDecode demoAction demoTilde "script.sh" []).invocations
    ∧ (read_from_kanata demoDecode demoAction demoTilde "script.sh"
        [ReadEvent.line "names-base-nav"]).result
      = (read_from_kanata demoDecode demoAction demoTilde "script.sh" []).result
    ∧ (read_from_kanata demoDecode demoAction demoTilde "script.sh"
        [ReadEvent.line "names-base-nav"]).decodeInputs
      = "names-base-nav"
          :: (read_from_kanata demoDecode demoAction demoTilde "script.sh" []).decodeInputs) :=
  ⟨rfl, non_layerchange_frame_ignored demoDecode demoAction demoTilde "script.sh"
    "names-base-nav" [] rfl⟩

/-- C3 counterexample: with the config file absent and the default
written successfully, the startup phase does not exit; it proceeds
(towards the connection loop) with the default configuration. -/
theorem config_absent_does_not_exit :
    loadConfig ReadFileResult.notFound (fun _ => Except.error "unused") WriteResult.ok
      = StartupOutcome.proceed defaultConfig
  ∧ loadConfig ReadFileResult.notFound (fun _ => Except.error "unused") WriteResult.ok
      ≠ StartupOutcome.exited 0 := by
  refine ⟨rfl, ?_⟩
  intro h
  simp [loadConfig, create_default_config] at h

/-- C3 (amended): if the config file is absent at startup, a default
config file is generated and the process then continues into the
connection loop using the generated default configuration; it does not
exit after writing it. -/
theorem config_absent_generates_default_and_proceeds
    (parse_toml : String → Except String Config) :
    loadConfig ReadFileResult.notFound parse_toml WriteResult.ok
      = StartupOutcome.proceed defaultConfig := rfl

/-- C4: a zero-byte read makes the stream processor return to the
supervisor with the connection-closed error, treated identically to any
other read error: in both cases, and on connect failure, the supervisor
iteration continues to the next attempt after sleeping exactly 30
seconds (never immediately, never stopping). -/
theorem clean_close_retried_after_30s
    (decode : String → Option ServerMessage) (action : Nat → ActionOutcome)
    (tilde : Nat → String → String) (script_path : String) (port : Nat)
    (frames : List String) (rest : List ReadEvent) (e : IoError) :
    (read_from_kanata decode action tilde script_path
        (frames.map ReadEvent.line ++ ReadEvent.closed :: rest)).result
      = some (Except.error connectionClosedError)
  ∧ (supervisorIter decode action tilde script_path port
        (ConnAttempt.connected (frames.map ReadEvent.line ++ ReadEvent.closed :: rest))).outcome
      = SupOutcome.nextAfter (some 30)
  ∧ (supervisorIter decode action tilde script_path port
        (ConnAttempt.connected (frames.map ReadEvent.line ++ ReadEvent.readErr e :: rest))).outcome
      = SupOutcome.nextAfter (some 30)
  ∧ (supervisorIter decode action tilde script_path port (ConnAttempt.failed e)).outcome
      = SupOutcome.nextAfter (some 30) := by
  have hc : (read_from_kanata decode action tilde script_path
      (frames.map ReadEvent.line ++ ReadEvent.closed :: rest)).result
      = some (Except.error connectionClosedError) := by
    rw [read_from_kanata_def]
    exact readLoop_result_closed decode action _ frames rest 0 ""
  have hr : (read_from_kanata decode action tilde script_path
      (frames.map ReadEvent.line ++ ReadEvent.readErr e :: rest)).result
      = some (Except.error e) := by
    rw [read_from_kanata_def]
    exact readLoop_result_readErr decode action _ frames e rest 0 ""
  refine ⟨hc, ?_, ?_, rfl⟩
  · simp [supervisorIter, hc]
  · simp [supervisorIter, hr]

/-- C5: the outcome of a script invocation never influences the control
flow: runs under any two action oracles have the same result, the same
decoder inputs and the same invocation paths and arguments; and every
invocation has its outcome logged (`scriptLog` maps a non-zero exit to
an error entry carrying the captured stderr and a launch failure to an
error entry carrying the launch error). -/
theorem action_failures_do_not_terminate
    (decode : String → Option ServerMessage) (tilde : Nat → String → String)
    (script_path : String) (events : List ReadEvent)
    (action1 action2 : Nat → ActionOutcome) :
    (read_from_kanata decode action1 tilde script_path events).result
      = (read_from_kanata decode action2 tilde script_path events).result
  ∧ (read_from_kanata decode action1 tilde script_path events).decodeInputs
      = (read_from_kanata decode action2 tilde script_path events).decodeInputs
  ∧ (read_from_kanata decode action1 tilde script_path events).invocations.map
        (fun i => (i.path, i.arg))
      = (read_from_kanata decode action2 tilde script_path events).invocations.map
        (fun i => (i.path, i.arg))
  ∧ ∀ inv ∈ (read_from_kanata decode action1 tilde script_path events).invocations,
      scriptLog inv.outcome ∈ (read_from_kanata decode action1 tilde script_path events).logs := by
  rw [read_from_kanata_def, read_from_kanata_def]
  obtain ⟨h1, h2, h3⟩ := readLoop_action_irrelevant decode _ events action1 action2 0 ""
  refine ⟨h1, h2, h3, ?_⟩
  intro inv h
  exact List.mem_cons_of_mem _ (readLoop_scriptLog_mem decode action1 _ events 0 "" inv h)

theorem action_failures_do_not_terminate_witness :
    (read_from_kanata demoDecode failAction demoTilde "script.sh"
        [ReadEvent.line "change-nav", ReadEvent.line "change-base"]).result
      = (read_from_kanata demoDecode demoAction demoTilde "script.sh"
        [ReadEvent.line "change-nav", ReadEvent.line "change-base"]).result
  ∧ (read_from_kanata demoDecode failAction demoTilde "script.sh"
        [ReadEvent.line "change-nav", ReadEvent.line "change-base"]).decodeInputs
      = (read_from_kanata demoDecode demoAction demoTilde "script.sh"
        [ReadEvent.line "change-nav", ReadEvent.line "change-base"]).decodeInputs
  ∧ (read_from_kanata demoDecode failAction demoTilde "script.sh"
        [ReadEvent.line "change-nav", ReadEvent.line "change-base"]).invocations.map
        (fun i => (i.path, i.arg))
      = (read_from_kanata demoDecode demoAction demoTilde "script.sh"
        [ReadEvent.line "change-nav", ReadEvent.line "change-base"]).invocations.map
        (fun i => (i.path, i.arg))
  ∧ ∀ inv ∈ (read_from_kanata demoDecode failAction demoTilde "script.sh"
        [ReadEvent.line "change-nav", ReadEvent.line "change-base"]).invocations,
      scriptLog inv.outcome ∈ (read_from_kanata demoDecode failAction demoTilde "script.sh"
        [ReadEvent.line "change-nav", ReadEvent.line "change-base"]).logs :=
  action_failures_do_not_terminate demoDecode demoTilde "script.sh"
    [ReadEvent.line "change-nav", ReadEvent.line "change-base"] failAction demoAction

/-- C6: the supervisor loop never terminates: no iteration outcome is a
process exit, and every iteration either is still blocked inside the
stream processor (its event trace is not yet exhausted by a failure) or
continues to a next iteration after the 30-second sleep. -/
theorem supervisor_never_terminates
    (decode : String → Option ServerMessage) (action : Nat → ActionOutcome)
    (tilde : Nat → String → String) (script_path : String) (port : Nat)
    (att : ConnAttempt) :
    (∀ code, (supervisorIter decode action tilde script_path port att).outcome
        ≠ SupOutcome.exited code)
  ∧ ((supervisorIter decode action tilde script_path port att).outcome = SupOutcome.blocked
      ∨ (supervisorIter decode action tilde script_path port att).outcome
          = SupOutcome.nextAfter (some 30)) := by
  cases att with
  | failed e =>
    refine ⟨fun code hc => ?_, Or.inr rfl⟩
    simp [supervisorIter] at hc
  | connected events =>
    rcases readLoop_result_none_or_error decode action (tilde 0 script_path) 0 "" events
      with h | ⟨e, h⟩
    · have hr : (read_from_kanata decode action tilde script_path events).result = none := by
        rw [read_from_kanata_def]; exact h
      refine ⟨fun code hc => ?_, Or.inl ?_⟩
      · simp [supervisorIter, hr] at hc
      · simp [supervisorIter, hr]
    · have hr : (read_from_kanata decode action tilde script_path events).result
          = some (Except.error e) := by
        rw [read_from_kanata_def]; exact h
      refine ⟨fun code hc => ?_, Or.inr ?_⟩
      · simp [supervisorIter, hr] at hc
      · simp [supervisorIter, hr]

theorem supervisor_never_terminates_witness :
    (∀ code, (supervisorIter demoDecode demoAction demoTilde "script.sh" 5829
        (ConnAttempt.failed demoConnErr)).outcome ≠ SupOutcome.exited code)
  ∧ ((supervisorIter demoDecode demoAction demoTilde "script.sh" 5829
        (ConnAttempt.failed demoConnErr)).outcome = SupOutcome.blocked
      ∨ (supervisorIter demoDecode demoAction demoTilde "script.sh" 5829
          (ConnAttempt.failed demoConnErr)).outcome = SupOutcome.nextAfter (some 30)) :=
  supervisor_never_terminates demoDecode demoAction demoTilde "script.sh" 5829
    (ConnAttempt.failed demoConnErr)

/-- C7: every terminating run of the stream processor returns an error:
the result of a finite run is either none (still reading) or an error,
and never a successful return. -/
theorem reader_never_returns_ok
    (decode : String → Option ServerMessage) (action : Nat → ActionOutcome)
    (tilde : Nat → String → String) (script_path : String) (events : List ReadEvent) :
    ((read_from_kanata decode action tilde script_path events).result = none
      ∨ ∃ e, (read_from_kanata decode action tilde script_path events).result
          = some (Except.error e))
  ∧ ∀ u, (read_from_kanata decode action tilde script_path events).result
      ≠ some (Except.ok u) := by
  rw [read_from_kanata_def]
  exact ⟨readLoop_result_none_or_error decode action _ 0 "" events,
    fun u => readLoop_result_ne_ok decode action _ events 0 "" u⟩

theorem reader_never_returns_ok_witness :
    ((read_from_kanata demoDecode demoAction demoTilde "script.sh"
        [ReadEvent.closed]).result = none
      ∨ ∃ e, (read_from_kanata demoDecode demoAction demoTilde "script.sh"
          [ReadEvent.closed]).result = some (Except.error e))
  ∧ ∀ u, (read_from_kanata demoDecode demoAction demoTilde "script.sh"
      [ReadEvent.closed]).result ≠ some (Except.ok u) :=
  reader_never_returns_ok demoDecode demoAction demoTilde "script.sh" [ReadEvent.closed]

/-- C8: the script path tilde is expanded exactly once per session,
before the read loop: every invocation of the session uses the
session-start expansion, and the whole session trace is unchanged under
any expansion function agreeing at session start (the expansion is never
recomputed during the loop). -/
theorem script_path_expanded_once
    (decode : String → Option ServerMessage) (action : Nat → ActionOutcome)
    (script_path : String) (events : List ReadEvent)
    (tilde1 tilde2 : Nat → String → String)
    (h : tilde1 0 script_path = tilde2 0 script_path) :
    (∀ inv ∈ (read_from_kanata decode action tilde1 script_path events).invocations,
        inv.path = tilde1 0 script_path)
  ∧ read_from_kanata decode action tilde1 script_path events
      = read_from_kanata decode action tilde2 script_path events := by
  constructor
  · intro inv hmem
    rw [read_from_kanata_def] at hmem
    exact readLoop_invocation_paths decode action _ events 0 "" inv hmem
  · rw [read_from_kanata_def, read_from_kanata_def, h]

theorem script_path_expanded_once_witness :
    demoTilde 0 "script.sh" = demoTildeConst 0 "script.sh"
  ∧ ((∀ inv ∈ (read_from_kanata demoDecode demoAction demoTilde "script.sh"
        [ReadEvent.line "change-nav"]).invocations,
        inv.path = demoTilde 0 "script.sh")
    ∧ read_from_kanata demoDecode demoAction demoTilde "script.sh"
        [ReadEvent.line "change-nav"]
      = read_from_kanata demoDecode demoAction demoTildeConst "script.sh"
        [ReadEvent.line "change-nav"]) :=
  ⟨rfl, script_path_expanded_once demoDecode demoAction "script.sh"
    [ReadEvent.line "change-nav"] demoTilde demoTildeConst rfl⟩

/-- C9: the session line buffer is cleared at the top of every iteration
before the read, so the loop behaves identically for any two initial
buffer contents, and over a run of line reads the string handed to the
decoder at each step is exactly that step's frame, with no carryover
from previously processed frames. -/
theorem buffer_holds_only_current_frame
    (decode : String → Option ServerMessage) (action : Nat → ActionOutcome)
    (tilde : Nat → String → String) (script_path : String) (p : String) (k : Nat)
    (m1 m2 : String) (events : List ReadEvent) (frames : List String) :
    readLoop decode action p k m1 events = readLoop decode action p k m2 events
  ∧ (read_from_kanata decode action tilde script_path (frames.map ReadEvent.line)).decodeInputs
      = frames := by
  refine ⟨readLoop_buffer_irrelevant decode action p k m1 m2 events, ?_⟩
  rw [read_from_kanata_def]
  exact readLoop_decodeInputs decode action _ frames 0 ""

/-- C10: log-level selection is total and prioritized: the trace flag
beats the debug flag, which beats the config value; the config value is
matched through its lowercasing (so case-insensitively), and any value
whose lowercasing is none of "trace", "debug", "info" falls back to the
info level. -/
theorem log_level_selection (t d : Bool) (s : String) :
    (determineLogLevel true d s = LevelFilter.trace)
  ∧ (determineLogLevel false true s = LevelFilter.debug)
  ∧ (∀ s2, to_lowercase s = to_lowercase s2 →
      determineLogLevel t d s = determineLogLevel t d s2)
  ∧ (t = false → d = false → to_lowercase s = "trace" →
      determineLogLevel t d s = LevelFilter.trace)
  ∧ (t = false → d = false → to_lowercase s = "debug" →
      determineLogLevel t d s = LevelFilter.debug)
  ∧ (t = false → d = false → to_lowercase s = "info" →
      determineLogLevel t d s = LevelFilter.info)
  ∧ (t = false → d = false → to_lowercase s ≠ "trace" → to_lowercase s ≠ "debug" →
      to_lowercase s ≠ "info" → determineLogLevel t d s = LevelFilter.info) := by
  refine ⟨rfl, rfl, ?_, ?_, ?_, ?_, ?_⟩
  · intro s2 h
    simp only [determineLogLevel, h]
  · intro ht hd h
    subst ht; subst hd
    simp only [determineLogLevel, Bool.false_eq_true, if_false, h]
  · intro ht hd h
    subst ht; subst hd
    simp only [determineLogLevel, Bool.false_eq_true, if_false, h]
  · intro ht hd h
    subst ht; subst hd
    simp only [determineLogLevel, Bool.false_eq_true, if_false, h]
  · intro ht hd h1 h2 h3
    subst ht; subst hd
    simp only [determineLogLevel, Bool.false_eq_true, if_false]

theorem log_level_selection_witness :
    determineLogLevel true false "warning" = LevelFilter.trace
  ∧ determineLogLevel false true "warning" = LevelFilter.debug
  ∧ determineLogLevel false false "TRACE" = LevelFilter.trace
  ∧ determineLogLevel false false "Debug" = LevelFilter.debug
  ∧ determineLogLevel false false "" = LevelFilter.info :=
  ⟨(log_level_selection true false "warning").1,
    (log_level_selection false true "warning").2.1,
    (log_level_selection false false "TRACE").2.2.2.1 rfl rfl (by decide),
    (log_level_selection false false "Debug").2.2.2.2.1 rfl rfl (by decide),
    (log_level_selection false false "").2.2.2.2.2.2 rfl rfl
      (by decide) (by decide) (by decide)⟩

end KanataLayerObserver
